import Mathlib

/-!
Shallow embedding of the headscale-k8s-operator core
(src/headscale.py and src/certificates.py) together with theorems
checking the natural-language specification against it.

Python conventions carried over explicitly:
  * `Optional[T]` fields become `Option T`;
  * Python truthiness of an `Optional[str]` (`None` and `""` are falsy)
    is `truthyStr`, of an `Optional[List[str]]` (`None` and `[]` falsy)
    is `truthyList`, and an object reference (`ops.Secret`) is truthy
    whenever present (`Option.isSome`);
  * raising an exception becomes returning `Except.error`;
  * container/filesystem state is passed explicitly, and functions that
    mutate it return the new state (also on the error path, since a
    Python exception leaves prior mutations in place);
  * the external yaml parser (`yaml.safe_load`) is a parameter
    `parse : String → Except String Yaml`, and the external process
    boundary (`container.exec`) a parameter
    `exec : List String → ExecOutcome`.
-/

namespace HeadscaleSpec

/-- Python truthiness of an `Optional[str]`: `None` and `""` are falsy. -/
def truthyStr : Option String → Bool
  | none => false
  | some s => s ≠ ""

/-- Python truthiness of an `Optional[List[str]]`: `None` and `[]` are falsy. -/
def truthyList : Option (List String) → Bool
  | none => false
  | some [] => false
  | some (_ :: _) => true

/-- Association-list lookup, modelling Python dict indexing (`m[k]`). -/
def getAssoc {α : Type} (m : List (String × α)) (k : String) : Option α :=
  match m with
  | [] => none
  | p :: ps => if p.1 == k then some p.2 else getAssoc ps k

/-- Association-list update, modelling Python dict assignment
(`m[k] = v`): an existing key keeps its position, a new key is appended. -/
def setAssoc {α : Type} (m : List (String × α)) (k : String) (v : α) :
    List (String × α) :=
  if m.any (fun p => p.1 == k) then
    m.map (fun p => if p.1 == k then (k, v) else p)
  else m ++ [(k, v)]

/-- Paths fixed in src/headscale.py and src/certificates.py. -/
def POLICY_PATH : String := "/etc/headscale/policy.hujson"

def SQLITE_PATH : String := "/var/lib/headscale/db.sqlite"

def NOISE_KEY : String := "/var/lib/headscale/noise_private.key"

def CONFIG_PATH : String := "/etc/headscale/config.yaml"

def CERTS_DIR_PATH : String := "/etc/headscale"

def PRIVATE_KEY_NAME : String := "headscale.key"

def CERTIFICATE_NAME : String := "headscale.pem"

def CERT_FILE_PATH : String := CERTS_DIR_PATH ++ "/" ++ CERTIFICATE_NAME

def KEY_FILE_PATH : String := CERTS_DIR_PATH ++ "/" ++ PRIVATE_KEY_NAME

/-- Model of `ops.Secret`: `get_content()` yields a string-to-string map. -/
structure OpsSecret where
  content : List (String × String)

/-- Values appearing in the generated configuration document and in
parsed command output (the `Dict | List | scalar` universe that
`yaml.safe_load` produces and `yaml.dump` consumes). -/
inductive Yaml where
  | str (s : String)
  | nullv
  | boolv (b : Bool)
  | intv (n : Int)
  | list (xs : List Yaml)
  | map (kvs : List (String × Yaml))

/-- Whether a parsed value is a mapping or a sequence
(`isinstance(d, dict) or isinstance(d, list)`). -/
def Yaml.isMapOrList : Yaml → Bool
  | .list _ => true
  | .map _ => true
  | _ => false

/-- Embedding of `HeadscaleConfig` (src/headscale.py, a frozen dataclass). -/
structure HeadscaleConfig where
  name : String
  log_level : String
  policy : Option String
  magic_dns : String
  oidc_issuer : Option String
  oidc_client_id : Option String
  oidc_secret : Option OpsSecret
  oidc_expiry : Option String
  oidc_scope : Option (List String)
  oidc_groups : Option (List String)

/-- Python `any(oidc_configs)` over the six OIDC fields, with each
field's own truthiness (a present `ops.Secret` object is always truthy). -/
def HeadscaleConfig.anyOidcSet (c : HeadscaleConfig) : Bool :=
  truthyStr c.oidc_issuer || truthyStr c.oidc_client_id ||
    c.oidc_secret.isSome || truthyStr c.oidc_expiry ||
    truthyList c.oidc_scope || truthyList c.oidc_groups

/-- Python `all([oidc_issuer, oidc_secret, oidc_client_id])`. -/
def HeadscaleConfig.minOidcSet (c : HeadscaleConfig) : Bool :=
  truthyStr c.oidc_issuer && c.oidc_secret.isSome &&
    truthyStr c.oidc_client_id

/-- Embedding of `HeadscaleConfig.__post_init__`: validation run at
construction.  `Except.error` models `raise ValueError`.  The
groups-without-scope branch only logs a warning, so it has no effect
here beyond succeeding. -/
def HeadscaleConfig.postInit (c : HeadscaleConfig) : Except String Unit :=
  if ¬ (c.log_level ∈ ["info", "debug", "critical", "warning"]) then
    Except.error "Invalid log-level"
  else if c.anyOidcSet && !c.minOidcSet then
    Except.error "Minimum OIDC Settings: issuer, secret, client_id"
  else
    Except.ok ()

/-- Value placed in a document for an `Optional[str]` field
(Python `None` serializes as null). -/
def optStrVal : Option String → Yaml
  | none => Yaml.nullv
  | some s => Yaml.str s

/-- Embedding of `HeadscaleConfig.oidc`.  Returns `none` exactly where
Python would raise: `self.oidc_secret.get_content()` on an absent
secret (`AttributeError`), or indexing a content map without an
`oidc-secret` key (`KeyError`). -/
def HeadscaleConfig.oidc (c : HeadscaleConfig) :
    Option (List (String × Yaml)) :=
  if !truthyStr c.oidc_issuer then some []
  else
    match c.oidc_secret with
    | none => none
    | some sec =>
      match getAssoc sec.content "oidc-secret" with
      | none => none
      | some secretVal =>
        let expiry := match c.oidc_expiry with
          | some e => if e ≠ "" then e else "1d"
          | none => "1d"
        let scope := match c.oidc_scope with
          | some (x :: xs) => x :: xs
          | _ => ["openid", "email", "profile"]
        let base := [("issuer", optStrVal c.oidc_issuer),
          ("client_id", optStrVal c.oidc_client_id),
          ("client_secret", Yaml.str secretVal),
          ("expiry", Yaml.str expiry),
          ("scope", Yaml.list (scope.map Yaml.str)),
          ("only_start_if_oidc_is_available", Yaml.boolv true)]
        let kvs := match c.oidc_groups with
          | some (g :: gs) =>
            base ++ [("allowed_groups", Yaml.list ((g :: gs).map Yaml.str))]
          | _ => base
        some [("oidc", Yaml.map kvs)]

/-- Embedding of `HeadscaleConfig.dns`. -/
def HeadscaleConfig.dns (c : HeadscaleConfig) : List (String × Yaml) :=
  if c.magic_dns = "" then [("magic_dns", Yaml.boolv false)]
  else
    [("magic_dns", Yaml.boolv true),
     ("base_domain", Yaml.str c.magic_dns),
     ("override_local_dns", Yaml.boolv false)]

/-- Embedding of `HeadscaleConfig.tls`. -/
def HeadscaleConfig.tls (_c : HeadscaleConfig) (enabled : Bool)
    (name : String) : List (String × Yaml) :=
  if enabled then
    [("tls_cert_path", Yaml.str (CERTS_DIR_PATH ++ "/" ++ CERTIFICATE_NAME)),
     ("tls_key_path", Yaml.str (CERTS_DIR_PATH ++ "/" ++ PRIVATE_KEY_NAME)),
     ("server_url", Yaml.str ("https://" ++ name ++ ":443")),
     ("listen_addr", Yaml.str "0.0.0.0:443")]
  else
    [("server_url", Yaml.str ("http://" ++ name ++ ":80")),
     ("listen_addr", Yaml.str "0.0.0.0:80")]

/-- Embedding of `HeadscaleConfig.log`. -/
def HeadscaleConfig.log (c : HeadscaleConfig) : List (String × Yaml) :=
  [("log", Yaml.map [("level", Yaml.str c.log_level)])]

/-- Embedding of `HeadscaleConfig.get_policy` (note: the source tests
`self.policy is not None` here, not truthiness). -/
def HeadscaleConfig.get_policy (c : HeadscaleConfig) : List (String × Yaml) :=
  match c.policy with
  | some _ => [("mode", Yaml.str "file"), ("path", Yaml.str POLICY_PATH)]
  | none => [("mode", Yaml.str "database")]

/-- Embedding of `HeadscaleConfig.static_config`. -/
def HeadscaleConfig.static_config : List (String × Yaml) :=
  [("metrics_listen_addr", Yaml.str "0.0.0.0:9090"),
   ("noise", Yaml.map [("private_key_path", Yaml.str NOISE_KEY)]),
   ("prefixes", Yaml.map
     [("v4", Yaml.str "100.64.0.0/10"),
      ("v6", Yaml.str "fd7a:115c:a1e0::/48"),
      ("allocation", Yaml.str "sequential")]),
   ("derp", Yaml.map
     [("server", Yaml.map [("enabled", Yaml.boolv false)]),
      ("urls", Yaml.list
        [Yaml.str "https://controlplane.tailscale.com/derpmap/default"]),
      ("auto_update_enabled", Yaml.boolv true),
      ("update_frequency", Yaml.str "24h")]),
   ("disable_check_updates", Yaml.boolv false),
   ("ephemeral_node_inactivity_timeout", Yaml.str "30m"),
   ("database", Yaml.map
     [("type", Yaml.str "sqlite"),
      ("debug", Yaml.str "false"),
      ("sqlite", Yaml.map
        [("path", Yaml.str SQLITE_PATH),
         ("write_ahead_log", Yaml.boolv true),
         ("wal_autocheckpoint", Yaml.intv 1000)])]),
   ("unix_socket", Yaml.str "/var/run/headscale/headscale.sock"),
   ("unix_socket_permission", Yaml.str "0770")]

/-- Python `dict |= other` / `dict.update`, folding `setAssoc`. -/
def mergeDict (m m2 : List (String × Yaml)) : List (String × Yaml) :=
  m2.foldl (fun acc kv => setAssoc acc kv.1 kv.2) m

/-- Embedding of the mutable state of a `Headscale` object
(`self.name`, `self.tls`) together with its immutable config. -/
structure Headscale where
  config : HeadscaleConfig
  name : String
  tls : Bool

/-- Embedding of `Headscale._generate_config`.  `none` models the
exception that `HeadscaleConfig.oidc` can raise. -/
def Headscale.generate_config (hs : Headscale) :
    Option (List (String × Yaml)) :=
  let d0 := HeadscaleConfig.static_config
  let d1 := setAssoc d0 "dns" (Yaml.map hs.config.dns)
  let d2 := setAssoc d1 "policy" (Yaml.map hs.config.get_policy)
  match hs.config.oidc with
  | none => none
  | some oidcSection =>
    let d3 := mergeDict d2 oidcSection
    let d4 := mergeDict d3 (hs.config.tls hs.tls hs.name)
    let d5 := mergeDict d4 hs.config.log
    some d5

/-- Workload container state seen through the process supervisor:
pushed files and the number of restart signals issued. -/
structure WorkloadState where
  files : List (String × String)
  restarts : Nat

/-- Embedding of `container.push`. -/
def pushFile (st : WorkloadState) (path content : String) : WorkloadState :=
  ⟨setAssoc st.files path content, st.restarts⟩

/-- Embedding of `Headscale._check_policy`.  `hujsonOk` is the outcome
of the external `hujsonfmt` syntax checker on the staged text (`false`
means nonzero exit).  Returns the container state after the call and
`some errorMessage` where Python raises `ValueError`. -/
def Headscale.check_policy (hs : Headscale) (hujsonOk : Bool)
    (st : WorkloadState) : WorkloadState × Option String :=
  if truthyStr hs.config.policy then
    let st1 := pushFile st POLICY_PATH (hs.config.policy.getD "")
    if hujsonOk then (st1, none) else (st1, some "Policy file incorrect")
  else (st, none)

/-- Embedding of `Headscale.render_config`.  `dump` is the external
`yaml.dump` serializer.  On success the config document is pushed and
one restart signal is issued; on any failure the state reached so far
is returned together with the error. -/
def Headscale.render_config (hs : Headscale)
    (dump : List (String × Yaml) → String) (hujsonOk : Bool)
    (st : WorkloadState) : WorkloadState × Option String :=
  match hs.check_policy hujsonOk st with
  | (st1, some e) => (st1, some e)
  | (st1, none) =>
    match hs.generate_config with
    | none => (st1, some "AttributeError")
    | some doc =>
      let st2 := pushFile st1 CONFIG_PATH (dump doc)
      (⟨st2.files, st2.restarts + 1⟩, none)

/-- Outcome of one `container.exec(...).wait_output()` call:
clean exit with both streams, `ops.pebble.ExecError` (nonzero exit,
both streams attached), or a transport-level fault (e.g.
`ops.pebble.ConnectionError`), which `_run_cmd` does not catch. -/
inductive ExecOutcome where
  | ok (stdout stderr : String)
  | execError (exit_code : Int) (stdout stderr : String)
  | transportError (msg : String)

/-- Embedding of `CmdResult` (a pydantic model in the source). -/
structure CmdResult where
  stderr : String
  stdout : Yaml
  exit_code : Int

/-- Embedding of `dictify`: attempt a structured parse of stdout; on a
parse error the local `d` keeps its initial value `""`; any result that
is not a mapping or sequence is wrapped as a one-key map. -/
def dictify (parse : String → Except String Yaml) (out : String) : Yaml :=
  let d := match parse out with
    | Except.ok v => v
    | Except.error _ => Yaml.str ""
  if d.isMapOrList then d else Yaml.map [("out", Yaml.str out)]

/-- Embedding of `Headscale._run_cmd`: a nonzero exit is caught and
returned as data; a transport fault propagates as `Except.error`. -/
def runCmd (parse : String → Except String Yaml)
    (exec : List String → ExecOutcome) (command : List String) :
    Except String CmdResult :=
  match exec command with
  | ExecOutcome.ok out err =>
    Except.ok ⟨err, dictify parse out, 0⟩
  | ExecOutcome.execError code out err =>
    Except.ok ⟨err, dictify parse out, code⟩
  | ExecOutcome.transportError m => Except.error m

/-- Embedding of `Headscale._run_headscale_cmd`. -/
def run_headscale_cmd (parse : String → Except String Yaml)
    (exec : List String → ExecOutcome) (command : List String) :
    Except String CmdResult :=
  runCmd parse exec (["/usr/bin/headscale", "--output", "yaml"] ++ command)

/-- Python `[u["name"] for u in ret.stdout]`: succeeds only when
`stdout` is a sequence whose elements are maps carrying a `name` key;
iterating a map yields plain key strings, and indexing a string raises
`TypeError` (`none` here). -/
def userNames : Yaml → Option (List Yaml)
  | Yaml.list xs =>
    xs.mapM (fun u => match u with
      | Yaml.map kvs => getAssoc kvs "name"
      | _ => none)
  | _ => none

/-- Python `"charm-admin" in names`: equality against a non-string
element is simply `False`, never an error. -/
def hasAdmin (names : List Yaml) : Bool :=
  names.any (fun y => match y with
    | Yaml.str s => s == "charm-admin"
    | _ => false)

/-- Embedding of `Headscale._create_admin_user` (the body of `setup`).
Besides the outcome it returns the list of headscale subcommands that
were actually invoked, so that "user-creation is invoked iff the admin
identity is absent" is observable.  `Except.error` models both the
explicit `raise Exception(...)` on a nonzero exit and a propagated
transport fault. -/
def create_admin_user (parse : String → Except String Yaml)
    (exec : List String → ExecOutcome) :
    Except String Unit × List (List String) :=
  let listCmd := ["user", "list"]
  match run_headscale_cmd parse exec listCmd with
  | Except.error m => (Except.error m, [listCmd])
  | Except.ok ret =>
    if ret.exit_code != 0 then
      (Except.error "Couldn't list users, bailing out", [listCmd])
    else
      match userNames ret.stdout with
      | none => (Except.error "TypeError", [listCmd])
      | some names =>
        if hasAdmin names then (Except.ok (), [listCmd])
        else
          let createCmd := ["user", "create", "charm-admin"]
          match run_headscale_cmd parse exec createCmd with
          | Except.error m => (Except.error m, [listCmd, createCmd])
          | Except.ok r2 =>
            if r2.exit_code != 0 then
              (Except.error "Couldn't create admin user, bailing out",
                [listCmd, createCmd])
            else (Except.ok (), [listCmd, createCmd])

/-! ### Certificate handling (src/certificates.py) -/

/-- State visible to `CertHandler`: the container connection, the
certificates relation, the certificate/key pair assigned by the
provider (the chain as a list of PEM strings, the key as its text
form), and the container filesystem. -/
structure CertState where
  canConnect : Bool
  relationCreated : Bool
  assignedChain : Option (List String)
  assignedKey : Option String
  files : List (String × String)

/-- Embedding of `CertHandler._concat_chain`. -/
def concat_chain (certs : List String) : String :=
  String.intercalate "\n" certs

/-- Embedding of `CertHandler._certificate_is_available`
(`bool(cert and key)`). -/
def CertState.certificate_is_available (s : CertState) : Bool :=
  s.assignedChain.isSome && s.assignedKey.isSome

/-- Embedding of `CertHandler._get_existing_certificate`: the stored
text when the file exists, else `None`. -/
def CertState.get_existing_certificate (s : CertState) : Option String :=
  getAssoc s.files CERT_FILE_PATH

/-- Embedding of `CertHandler._get_existing_private_key` (stored text
round-tripped through `PrivateKey.from_string`, modelled as the
string itself). -/
def CertState.get_existing_private_key (s : CertState) : Option String :=
  getAssoc s.files KEY_FILE_PATH

/-- Embedding of `CertHandler._check_and_update_certificate`.  Returns
the boolean the source returns, the list of file writes performed
(path, content), and the resulting state. -/
def CertState.check_and_update_certificate (s : CertState) :
    Bool × List (String × String) × CertState :=
  match s.assignedChain, s.assignedKey with
  | some chain, some key =>
    let chainStr := concat_chain chain
    let certReq := s.get_existing_certificate != some chainStr
    let f1 := if certReq then setAssoc s.files CERT_FILE_PATH chainStr
      else s.files
    let w1 : List (String × String) :=
      if certReq then [(CERT_FILE_PATH, chainStr)] else []
    let keyReq := getAssoc f1 KEY_FILE_PATH != some key
    let f2 := if keyReq then setAssoc f1 KEY_FILE_PATH key else f1
    let w2 : List (String × String) :=
      if keyReq then [(KEY_FILE_PATH, key)] else []
    (certReq || keyReq, w1 ++ w2,
      ⟨s.canConnect, s.relationCreated, s.assignedChain, s.assignedKey, f2⟩)
  | _, _ => (false, [], s)

/-- Embedding of `CertHandler.configure_certs`.  Note the source
assigns `certificate_update_required = self._check_and_update_certificate()`
and then returns `True` unconditionally, discarding that flag; the
model keeps the same behavior (first component is the returned bool,
second the writes performed, third the resulting state). -/
def CertState.configure_certs (s : CertState) :
    Bool × List (String × String) × CertState :=
  if !s.canConnect then (false, [], s)
  else if !s.relationCreated then (false, [], s)
  else if !s.certificate_is_available then (false, [], s)
  else
    let r := s.check_and_update_certificate
    (true, r.2.1, r.2.2)

/-! ### Backup and restore (src/headscale.py) -/

/-- Environment for `create_backup` / `restore_backup`: the yaml parser
and exec boundary as for `runCmd`; whether the host-side steps succeed
(`clearOk` for `BACKUP_PATH.mkdir` plus the unlink loop, `pullOk` for
`container.pull_path`, `renameOk` for `Path.rename` — each raises an
`OSError`-style exception on failure in the source); the names
currently in the charm-side export directory `/tmp/backup/`; and the
timestamp `datetime.now().strftime(...)` produces at rename time. -/
structure BackupEnv where
  parse : String → Except String Yaml
  exec : List String → ExecOutcome
  clearOk : Bool
  pullOk : Bool
  renameOk : Bool
  hostFiles : List String
  ts : String

/-- The sqlite snapshot-copy command. -/
def sqliteCmd : List String := ["sqlite3_rsync", SQLITE_PATH, "/tmp/db.sqlite"]

/-- The noise-key staging copy command. -/
def cpCmd : List String := ["cp", NOISE_KEY, "/tmp/"]

/-- The archive-bundling command. -/
def tarCmd : List String :=
  ["tar", "-czf", "/tmp/backup.tar.gz", "-C", "/tmp/",
   "db.sqlite", "noise_private.key"]

/-- Embedding of `Headscale.create_backup`.  Returns the outcome (the
archive name on success) together with the final contents of the
export directory.  Faithful points: the result of the `cp` of the
noise key is discarded (only a transport fault there propagates); the
exit codes of `sqlite3_rsync` and `tar` are checked and raise; the
mkdir-and-unlink clearing of the export directory, the pull and the
rename each abort by raising when they fail (on a clearing failure the
model reports the pre-clear listing — the surviving subset is
environment-dependent, and in particular holds no new archive; on a
rename failure the pulled but unrenamed `backup.tar.gz` remains); all
prior export-directory entries are unlinked before the pull; the
pulled `backup.tar.gz` is renamed to a timestamped name. -/
def create_backup (env : BackupEnv) : Except String String × List String :=
  match runCmd env.parse env.exec sqliteCmd with
  | Except.error m => (Except.error m, env.hostFiles)
  | Except.ok ret =>
    if ret.exit_code != 0 then
      (Except.error "Could not create backup.", env.hostFiles)
    else
      match runCmd env.parse env.exec cpCmd with
      | Except.error m => (Except.error m, env.hostFiles)
      | Except.ok _ =>
        match runCmd env.parse env.exec tarCmd with
        | Except.error m => (Except.error m, env.hostFiles)
        | Except.ok ret2 =>
          if ret2.exit_code != 0 then
            (Except.error "Could not tar backup.", env.hostFiles)
          else if !env.clearOk then
            (Except.error "Could not clear export directory.", env.hostFiles)
          else
            let cleared : List String := []
            if env.pullOk then
              let pulled := cleared ++ ["backup.tar.gz"]
              if env.renameOk then
                let backup_file :=
                  "headscale-backup-" ++ env.ts ++ ".tar.gz"
                let renamed :=
                  (pulled.filter (fun f => f ≠ "backup.tar.gz")) ++
                    [backup_file]
                (Except.ok backup_file, renamed)
              else (Except.error "Could not rename backup.", pulled)
            else (Except.error "pull failed", cleared)

/-- Observable steps of `restore_backup`, in the order the source
performs them. -/
inductive Ev where
  | backupCreated
  | stopSvc
  | extractArchive
  | pushDb
  | pushNoise
  | startSvc
  | unlinkArchive
  deriving DecidableEq

/-- Embedding of `Headscale.restore_backup`: first a fresh safety-net
backup (propagating its failure), then stop the service, extract the
archive, push the database file, push the noise key, start the
service, and unlink the input archive.  The event list is built one
source line at a time. -/
def restore_backup (env : BackupEnv) (_backup_path : String) :
    Except String (String × List Ev) :=
  match create_backup env with
  | (Except.error m, _) => Except.error m
  | (Except.ok backup, _) =>
    let t1 := [Ev.backupCreated]
    let t2 := t1 ++ [Ev.stopSvc]
    let t3 := t2 ++ [Ev.extractArchive]
    let t4 := t3 ++ [Ev.pushDb]
    let t5 := t4 ++ [Ev.pushNoise]
    let t6 := t5 ++ [Ev.startSvc]
    let t7 := t6 ++ [Ev.unlinkArchive]
    Except.ok (backup, t7)

/-! ### Concrete fixtures used by witnesses and counterexamples -/

/-- Witness parser modelling `yaml.safe_load` on four sample documents:
the empty string parses to null, a bare word to a string scalar, a
one-entry mapping document to a mapping, and anything else (such as
the malformed document `a: b: c`) fails to parse. -/
def yamlParse0 : String → Except String Yaml := fun s =>
  if s = "" then Except.ok Yaml.nullv
  else if s = "word" then Except.ok (Yaml.str "word")
  else if s = "a: 1" then Except.ok (Yaml.map [("a", Yaml.intv 1)])
  else Except.error "could not parse"

/-- Exec boundary where every command exits 2. -/
def execFail2 : List String → ExecOutcome := fun _ =>
  ExecOutcome.execError 2 "oops" "bad"

/-- Exec boundary where every command succeeds with empty output. -/
def execAllOk : List String → ExecOutcome := fun _ => ExecOutcome.ok "" ""

/-- Config with an invalid log level and no OIDC fields. -/
def cLogBad : HeadscaleConfig :=
  ⟨"h", "verbose", none, "", none, none, none, none, none, none⟩

/-- Config with a valid log level and no OIDC fields. -/
def cLogGood : HeadscaleConfig :=
  ⟨"h", "info", none, "", none, none, none, none, none, none⟩

/-- Config with only `oidc_groups` set (no issuer/client/secret). -/
def cGroupsOnly : HeadscaleConfig :=
  ⟨"h", "info", none, "", none, none, none, none, none, some ["admins"]⟩

/-- A secret whose content carries the `oidc-secret` key. -/
def secretOk : OpsSecret := ⟨[("oidc-secret", "s3cr3t")]⟩

/-- Config with the minimum OIDC fields plus groups, no scope and no
expiry. -/
def cMinOidc : HeadscaleConfig :=
  ⟨"h", "info", none, "", some "https://issuer.example", some "client123",
    some secretOk, none, none, some ["admins"]⟩

/-- Headscale object whose config stages a policy text. -/
def hsPolicyBad : Headscale :=
  ⟨⟨"h", "info", some "acls: nonsense", "", none, none, none, none, none,
    none⟩, "h", false⟩

/-- Headscale object whose config has no policy text. -/
def hsNoPolicy : Headscale := ⟨cLogGood, "h", false⟩

/-- Container state already holding a config document. -/
def stWithConfig : WorkloadState := ⟨[(CONFIG_PATH, "oldcfg")], 0⟩

/-- Trivial serializer standing in for `yaml.dump`. -/
def dump0 : List (String × Yaml) → String := fun _ => "doc"

/-- Cert-handler state with everything assigned and an empty container
filesystem (first sync). -/
def certState0 : CertState :=
  ⟨true, true, some ["certA", "certB"], some "keyPEM", []⟩

/-- Cert-handler state after the first sync: both files stored and equal
to the assigned material. -/
def certState1 : CertState :=
  ⟨true, true, some ["certA", "certB"], some "keyPEM",
   [(CERT_FILE_PATH, "certA\ncertB"), (KEY_FILE_PATH, "keyPEM")]⟩

/-- Backup environment in which every external step succeeds. -/
def envOk : BackupEnv :=
  ⟨yamlParse0, execAllOk, true, true, true,
   ["headscale-backup-old.tar.gz"], "20250102-030405"⟩

/-- Exec boundary where only the `cp` of the noise key fails (exit 1). -/
def execCpFails : List String → ExecOutcome := fun argv =>
  if argv.head? = some "cp" then ExecOutcome.execError 1 "" "cp: cannot stat"
  else ExecOutcome.ok "" ""

/-- Backup environment in which the noise-key copy step fails. -/
def envCpFails : BackupEnv :=
  ⟨yamlParse0, execCpFails, true, true, true, ["old.tar.gz"],
   "20250101-000000"⟩

/-- Exec boundary where only the `tar` bundling step fails (exit 2). -/
def execTarFails : List String → ExecOutcome := fun argv =>
  if argv.head? = some "tar" then ExecOutcome.execError 2 "" "tar: error"
  else ExecOutcome.ok "" ""

/-- Backup environment in which the bundling step fails. -/
def envTarFails : BackupEnv :=
  ⟨yamlParse0, execTarFails, true, true, true,
   ["old1.tar.gz", "old2.tar.gz"], "20250103-000000"⟩

/-- The full argv of the user-listing subcommand. -/
def hsListCmd : List String :=
  ["/usr/bin/headscale", "--output", "yaml", "user", "list"]

/-- The full argv of the admin-creation subcommand. -/
def hsCreateCmd : List String :=
  ["/usr/bin/headscale", "--output", "yaml", "user", "create", "charm-admin"]

/-- Exec boundary where the user listing exits 1 (no transport fault). -/
def execListFails : List String → ExecOutcome := fun argv =>
  if argv = hsListCmd then ExecOutcome.execError 1 "" "some error"
  else ExecOutcome.ok "" ""

/-- Witness parser for the admin flow: the marker text parses to a
one-user listing that does not contain `charm-admin`. -/
def parseUsers : String → Except String Yaml := fun s =>
  if s = "users-yaml" then
    Except.ok (Yaml.list [Yaml.map [("name", Yaml.str "alice")]])
  else Except.ok Yaml.nullv

/-- Exec boundary for the admin flow: the listing succeeds with the
marker text, everything else succeeds silently. -/
def execAdminFlow : List String → ExecOutcome := fun argv =>
  if argv = hsListCmd then ExecOutcome.ok "users-yaml" ""
  else ExecOutcome.ok "" ""

/-- The event trace `restore_backup` produces on success. -/
def restoreTrace : List Ev :=
  [Ev.backupCreated, Ev.stopSvc, Ev.extractArchive, Ev.pushDb,
   Ev.pushNoise, Ev.startSvc, Ev.unlinkArchive]

/-! ### Helper lemmas -/

theorem getAssoc_map_update_ne {α : Type} (m : List (String × α))
    (k k2 : String) (v : α) (h : (k == k2) = false) :
    getAssoc (m.map (fun p => if p.1 == k then (k, v) else p)) k2 =
      getAssoc m k2 := by
  induction m with
  | nil => rfl
  | cons p ps ih =>
    by_cases hp : (p.1 == k) = true
    · have hk : p.1 = k := by simpa using hp
      have hp2 : (p.1 == k2) = false := by rw [hk]; exact h
      simp [getAssoc, hp, h, hp2]
      simpa using ih
    · have hp' : (p.1 == k) = false := by simpa using hp
      cases hq : (p.1 == k2) with
      | true => simp [getAssoc, hp', hq]
      | false =>
        simp [getAssoc, hp', hq]
        simpa using ih

theorem getAssoc_append_single_ne {α : Type} (m : List (String × α))
    (k k2 : String) (v : α) (h : (k == k2) = false) :
    getAssoc (m ++ [(k, v)]) k2 = getAssoc m k2 := by
  induction m with
  | nil => simp [getAssoc, h]
  | cons p ps ih =>
    cases hq : (p.1 == k2) with
    | true => simp [getAssoc, hq]
    | false => simp [getAssoc, hq, ih]

theorem getAssoc_setAssoc_ne {α : Type} (m : List (String × α))
    (k k2 : String) (v : α) (h : (k == k2) = false) :
    getAssoc (setAssoc m k v) k2 = getAssoc m k2 := by
  unfold setAssoc
  split
  · exact getAssoc_map_update_ne m k k2 v h
  · exact getAssoc_append_single_ne m k k2 v h

theorem getAssoc_map_update_self {α : Type} (m : List (String × α))
    (k : String) (v : α) (hm : m.any (fun p => p.1 == k) = true) :
    getAssoc (m.map (fun p => if p.1 == k then (k, v) else p)) k = some v := by
  induction m with
  | nil => simp at hm
  | cons p ps ih =>
    by_cases hp : (p.1 == k) = true
    · simp [getAssoc, hp]
    · have hp' : (p.1 == k) = false := by simpa using hp
      have hm' : ps.any (fun p => p.1 == k) = true := by
        simpa [List.any_cons, hp'] using hm
      simp [getAssoc, hp']
      simpa using ih hm'

theorem getAssoc_append_single_self {α : Type} (m : List (String × α))
    (k : String) (v : α) (hm : m.any (fun p => p.1 == k) = false) :
    getAssoc (m ++ [(k, v)]) k = some v := by
  induction m with
  | nil => simp [getAssoc]
  | cons p ps ih =>
    have hp : (p.1 == k) = false := by
      cases hp : (p.1 == k) with
      | true => simp [List.any_cons, hp] at hm
      | false => rfl
    have hm' : ps.any (fun p => p.1 == k) = false := by
      simpa [List.any_cons, hp] using hm
    simp [getAssoc, hp, ih hm']

theorem getAssoc_setAssoc_self {α : Type} (m : List (String × α))
    (k : String) (v : α) : getAssoc (setAssoc m k v) k = some v := by
  unfold setAssoc
  split
  case isTrue hm => exact getAssoc_map_update_self m k v hm
  case isFalse hm =>
    refine getAssoc_append_single_self m k v ?_
    cases hany : m.any (fun p => p.1 == k) with
    | true => exact absurd hany hm
    | false => rfl

/-! ### Claim theorems -/

/-- C9: for every `log_level` string outside
`{info, debug, critical, warning}`, `HeadscaleConfig` construction
(`__post_init__`) fails; for every level in the set, with the other
fields valid (here: the OIDC invariant satisfied), construction
succeeds. -/
theorem postInit_log_level_validation (c : HeadscaleConfig) :
    (c.log_level ∉ ["info", "debug", "critical", "warning"] →
      c.postInit.isOk = false) ∧
    (c.log_level ∈ ["info", "debug", "critical", "warning"] →
      (c.anyOidcSet = true → c.minOidcSet = true) →
      c.postInit = Except.ok ()) := by
  constructor
  · intro h
    simp [HeadscaleConfig.postInit, h, Except.isOk, Except.toBool]
  · intro h hOidc
    have hb : (c.anyOidcSet && !c.minOidcSet) = false := by
      cases hA : c.anyOidcSet
      · simp
      · simp [hOidc hA]
    simp [HeadscaleConfig.postInit, h, hb]

/-- Witness for C9 at two concrete configurations. -/
theorem postInit_log_level_validation_witness :
    cLogBad.postInit.isOk = false ∧ cLogGood.postInit = Except.ok () :=
  ⟨(postInit_log_level_validation cLogBad).1 (by decide),
   (postInit_log_level_validation cLogGood).2 (by decide) (by decide)⟩

/-- C3: with a valid log level, construction fails iff at least one
OIDC field is set (Python truthiness: a non-empty value; the spec
itself treats empty strings as unset, e.g. for `magic_dns`) while not
all of issuer/client_id/secret are set; and setting `oidc_groups`
without `oidc_scope` is by itself never a failure — with the minimum
triple set it only logs a warning. -/
theorem postInit_oidc_all_or_minimum (c : HeadscaleConfig)
    (hlog : c.log_level ∈ ["info", "debug", "critical", "warning"]) :
    (c.postInit.isOk = false ↔
      (c.anyOidcSet = true ∧ c.minOidcSet = false)) ∧
    (c.minOidcSet = true → truthyList c.oidc_groups = true →
      truthyList c.oidc_scope = false → c.postInit = Except.ok ()) := by
  constructor
  · constructor
    · intro h
      by_contra hc
      have hb : (c.anyOidcSet && !c.minOidcSet) = false := by
        cases hA : c.anyOidcSet
        · simp
        · cases hM : c.minOidcSet
          · exact absurd ⟨hA, hM⟩ hc
          · simp [hM]
      simp [HeadscaleConfig.postInit, hlog, hb, Except.isOk,
        Except.toBool] at h
    · intro hAM
      simp [HeadscaleConfig.postInit, hlog, hAM.1, hAM.2, Except.isOk,
        Except.toBool]
  · intro hM _ _
    simp [HeadscaleConfig.postInit, hlog, hM]

/-- Witness for C3: groups set alone fails construction (it misses the
minimum triple), while the full minimum triple plus groups-without-
scope succeeds. -/
theorem postInit_oidc_all_or_minimum_witness :
    cGroupsOnly.postInit.isOk = false ∧ cMinOidc.postInit = Except.ok () :=
  ⟨(postInit_oidc_all_or_minimum cGroupsOnly (by decide)).1.mpr
      (by constructor <;> decide),
   (postInit_oidc_all_or_minimum cMinOidc (by decide)).2 (by decide)
      (by decide) (by decide)⟩

/-- C4: for every stdout string, `dictify` always returns a mapping or
sequence; a parse yielding a mapping/sequence is returned as is; a
parse yielding a scalar, or a parse failure, is wrapped as
`{"out": original text}`. -/
theorem dictify_normalization (parse : String → Except String Yaml)
    (out : String) :
    (dictify parse out).isMapOrList = true ∧
    (∀ v, parse out = Except.ok v → v.isMapOrList = true →
      dictify parse out = v) ∧
    (∀ v, parse out = Except.ok v → v.isMapOrList = false →
      dictify parse out = Yaml.map [("out", Yaml.str out)]) ∧
    (∀ e, parse out = Except.error e →
      dictify parse out = Yaml.map [("out", Yaml.str out)]) := by
  refine ⟨?_, ?_, ?_, ?_⟩
  · cases hp : parse out with
    | ok v => cases v <;> simp [dictify, hp, Yaml.isMapOrList]
    | error e => simp [dictify, hp, Yaml.isMapOrList]
  · intro v hp hv
    simp [dictify, hp, hv]
  · intro v hp hv
    simp [dictify, hp, hv]
  · intro e hp
    simp [dictify, hp, Yaml.isMapOrList]

/-- Witness for C4 on the four sample documents: empty string, bare
word, valid mapping document, malformed document. -/
theorem dictify_normalization_witness :
    dictify yamlParse0 "a: 1" = Yaml.map [("a", Yaml.intv 1)] ∧
    dictify yamlParse0 "" = Yaml.map [("out", Yaml.str "")] ∧
    dictify yamlParse0 "word" = Yaml.map [("out", Yaml.str "word")] ∧
    dictify yamlParse0 "a: b: c" = Yaml.map [("out", Yaml.str "a: b: c")] :=
  ⟨(dictify_normalization yamlParse0 "a: 1").2.1 _ rfl rfl,
   (dictify_normalization yamlParse0 "").2.2.1 _ rfl rfl,
   (dictify_normalization yamlParse0 "word").2.2.1 _ rfl rfl,
   (dictify_normalization yamlParse0 "a: b: c").2.2.2 _ rfl⟩

/-- C5: `_run_cmd` never raises for a nonzero exit — the exit code and
both streams come back as data in `CmdResult` — and only a
transport-level fault surfaces as a raised error. -/
theorem runCmd_never_raises_on_nonzero_exit
    (parse : String → Except String Yaml)
    (exec : List String → ExecOutcome) (cmd : List String) :
    (∀ code out err, exec cmd = ExecOutcome.execError code out err →
      runCmd parse exec cmd = Except.ok ⟨err, dictify parse out, code⟩) ∧
    (∀ out err, exec cmd = ExecOutcome.ok out err →
      runCmd parse exec cmd = Except.ok ⟨err, dictify parse out, 0⟩) ∧
    (∀ m, exec cmd = ExecOutcome.transportError m →
      runCmd parse exec cmd = Except.error m) := by
  refine ⟨?_, ?_, ?_⟩ <;> intros <;> simp [runCmd, *]

/-- Witness for C5: a command exiting 2 yields a structured result, not
an error. -/
theorem runCmd_never_raises_witness :
    runCmd yamlParse0 execFail2 ["x"] =
      Except.ok ⟨"bad", Yaml.map [("out", Yaml.str "oops")], 2⟩ :=
  (runCmd_never_raises_on_nonzero_exit yamlParse0 execFail2 ["x"]).1
    2 "oops" "bad" rfl

/-- C2: when a policy text is staged and the external syntax checker
exits nonzero, `render_config` fails with the policy error before any
config-document write and before any restart signal; the invalid text
remains staged at the policy path and the previously persisted config
document is untouched.  When the policy text is absent the policy
check is a no-op that succeeds, whatever the checker would say. -/
theorem render_config_policy_gating (hs : Headscale)
    (dump : List (String × Yaml) → String) (st : WorkloadState) :
    (truthyStr hs.config.policy = true →
      ((hs.render_config dump false st).2 = some "Policy file incorrect" ∧
       getAssoc (hs.render_config dump false st).1.files CONFIG_PATH =
         getAssoc st.files CONFIG_PATH ∧
       (hs.render_config dump false st).1.restarts = st.restarts ∧
       getAssoc (hs.render_config dump false st).1.files POLICY_PATH =
         some (hs.config.policy.getD ""))) ∧
    (truthyStr hs.config.policy = false →
      ∀ hujsonOk, hs.check_policy hujsonOk st = (st, none)) := by
  constructor
  · intro hpol
    have hcp : hs.check_policy false st =
        (pushFile st POLICY_PATH (hs.config.policy.getD ""),
         some "Policy file incorrect") := by
      simp [Headscale.check_policy, hpol]
    have hrc : hs.render_config dump false st =
        (pushFile st POLICY_PATH (hs.config.policy.getD ""),
         some "Policy file incorrect") := by
      simp [Headscale.render_config, hcp]
    rw [hrc]
    refine ⟨rfl, ?_, rfl, ?_⟩
    · exact getAssoc_setAssoc_ne _ _ _ _ (by decide)
    · exact getAssoc_setAssoc_self _ _ _
  · intro hpol hujsonOk
    simp [Headscale.check_policy, hpol]

/-- Witness for C2: concrete state with an existing config document, a
bad policy, and a failing checker; plus the no-op case. -/
theorem render_config_policy_gating_witness :
    (hsPolicyBad.render_config dump0 false stWithConfig).2 =
        some "Policy file incorrect" ∧
    getAssoc (hsPolicyBad.render_config dump0 false stWithConfig).1.files
        CONFIG_PATH = some "oldcfg" ∧
    (hsPolicyBad.render_config dump0 false stWithConfig).1.restarts = 0 ∧
    getAssoc (hsPolicyBad.render_config dump0 false stWithConfig).1.files
        POLICY_PATH = some "acls: nonsense" ∧
    hsNoPolicy.check_policy true stWithConfig = (stWithConfig, none) := by
  have h := (render_config_policy_gating hsPolicyBad dump0 stWithConfig).1 rfl
  have h2 :=
    (render_config_policy_gating hsNoPolicy dump0 stWithConfig).2 rfl true
  exact ⟨h.1, by rw [h.2.1]; rfl, h.2.2.1, h.2.2.2, h2⟩

/-- C1 (documents the code bug): with all preconditions satisfied, the
first sync writes both files and returns true; an immediately repeated
sync with the same assigned chain and key performs zero writes — yet
`configure_certs` still returns true, because the source discards the
flag of `_check_and_update_certificate` in a dead assignment and
returns `True` unconditionally. -/
theorem configure_certs_result_ignores_writes :
    certState0.configure_certs =
      (true, [(CERT_FILE_PATH, "certA\ncertB"), (KEY_FILE_PATH, "keyPEM")],
        certState1) ∧
    certState1.configure_certs = (true, [], certState1) := ⟨rfl, rfl⟩

/-- The inner routine `_check_and_update_certificate` itself reports
honestly: its boolean result is true exactly when it wrote at least
one file (supporting evidence that discarding it in `configure_certs`
is a slip). -/
theorem check_and_update_flag_iff_writes (s : CertState) :
    s.check_and_update_certificate.1 =
      !s.check_and_update_certificate.2.1.isEmpty := by
  unfold CertState.check_and_update_certificate
  cases s.assignedChain with
  | none => rfl
  | some chain =>
    cases s.assignedKey with
    | none => rfl
    | some key =>
      cases hc : (s.get_existing_certificate != some (concat_chain chain)) <;>
        simp only [hc] <;>
        cases hk : (getAssoc s.files KEY_FILE_PATH != some key) <;>
        cases hk2 :
          (getAssoc (setAssoc s.files CERT_FILE_PATH (concat_chain chain))
            KEY_FILE_PATH != some key) <;>
        simp [hc, hk, hk2]

/-- C6: on every input archive path, once the fresh safety-net backup
succeeds, `restore_backup` returns that backup and its event trace
stops the workload strictly before either data file is pushed,
restarts it only after both pushes, and unlinks the input archive at
the very end. -/
theorem restore_backup_ordering (env : BackupEnv) (p b : String)
    (fs : List String) (h : create_backup env = (Except.ok b, fs)) :
    restore_backup env p = Except.ok (b, restoreTrace) ∧
    restoreTrace.indexOf Ev.backupCreated = 0 ∧
    restoreTrace.indexOf Ev.stopSvc < restoreTrace.indexOf Ev.pushDb ∧
    restoreTrace.indexOf Ev.stopSvc < restoreTrace.indexOf Ev.pushNoise ∧
    restoreTrace.indexOf Ev.pushDb < restoreTrace.indexOf Ev.startSvc ∧
    restoreTrace.indexOf Ev.pushNoise < restoreTrace.indexOf Ev.startSvc ∧
    restoreTrace.indexOf Ev.startSvc <
      restoreTrace.indexOf Ev.unlinkArchive := by
  refine ⟨?_, by decide, by decide, by decide, by decide, by decide,
    by decide⟩
  simp [restore_backup, h, restoreTrace]

/-- Witness for C6 in an environment where every external step
succeeds. -/
theorem restore_backup_ordering_witness :
    restore_backup envOk "input.tar.gz" =
      Except.ok ("headscale-backup-20250102-030405.tar.gz", restoreTrace) :=
  (restore_backup_ordering envOk "input.tar.gz"
    "headscale-backup-20250102-030405.tar.gz"
    ["headscale-backup-20250102-030405.tar.gz"] rfl).1

/-- C7 counterexample: the noise-key `cp` (step 2) exits 1 while every
other step succeeds, and `create_backup` neither aborts nor raises: it
returns a fresh archive.  Step 2 is therefore not a hard-fail point as
the claim states. -/
theorem create_backup_cp_failure_not_fatal :
    execCpFails cpCmd = ExecOutcome.execError 1 "" "cp: cannot stat" ∧
    create_backup envCpFails =
      (Except.ok "headscale-backup-20250101-000000.tar.gz",
       ["headscale-backup-20250101-000000.tar.gz"]) := ⟨rfl, rfl⟩

/-- C7 amended: each of steps (1) snapshot-copy, (3) bundling, (4)
clearing the export directory, (5) transfer and (6) timestamp rename
is a hard-fail point — whenever it fails (a nonzero checked exit, a
transport fault, or a raising host-side operation), `create_backup`
aborts and raises, leaving no partial archive visible; but step (2),
the noise-key copy to staging, is not: it aborts only on a
transport-level fault, and its nonzero exit is ignored, the backup
proceeding to success. -/
theorem create_backup_hard_fail_points (env : BackupEnv) :
    (∀ m, env.exec sqliteCmd = ExecOutcome.transportError m →
      create_backup env = (Except.error m, env.hostFiles)) ∧
    (∀ code o e, code ≠ 0 →
      env.exec sqliteCmd = ExecOutcome.execError code o e →
      create_backup env =
        (Except.error "Could not create backup.", env.hostFiles)) ∧
    (∀ o e m, env.exec sqliteCmd = ExecOutcome.ok o e →
      env.exec cpCmd = ExecOutcome.transportError m →
      create_backup env = (Except.error m, env.hostFiles)) ∧
    (∀ o e m, env.exec sqliteCmd = ExecOutcome.ok o e →
      (∀ m2, env.exec cpCmd ≠ ExecOutcome.transportError m2) →
      env.exec tarCmd = ExecOutcome.transportError m →
      create_backup env = (Except.error m, env.hostFiles)) ∧
    (∀ o e code3 o3 e3, env.exec sqliteCmd = ExecOutcome.ok o e →
      (∀ m, env.exec cpCmd ≠ ExecOutcome.transportError m) →
      code3 ≠ 0 → env.exec tarCmd = ExecOutcome.execError code3 o3 e3 →
      create_backup env =
        (Except.error "Could not tar backup.", env.hostFiles)) ∧
    (∀ o e o3 e3, env.exec sqliteCmd = ExecOutcome.ok o e →
      (∀ m, env.exec cpCmd ≠ ExecOutcome.transportError m) →
      env.exec tarCmd = ExecOutcome.ok o3 e3 → env.clearOk = false →
      create_backup env =
        (Except.error "Could not clear export directory.",
         env.hostFiles)) ∧
    (∀ o e o3 e3, env.exec sqliteCmd = ExecOutcome.ok o e →
      (∀ m, env.exec cpCmd ≠ ExecOutcome.transportError m) →
      env.exec tarCmd = ExecOutcome.ok o3 e3 → env.clearOk = true →
      env.pullOk = false →
      create_backup env = (Except.error "pull failed", [])) ∧
    (∀ o e o3 e3, env.exec sqliteCmd = ExecOutcome.ok o e →
      (∀ m, env.exec cpCmd ≠ ExecOutcome.transportError m) →
      env.exec tarCmd = ExecOutcome.ok o3 e3 → env.clearOk = true →
      env.pullOk = true → env.renameOk = false →
      create_backup env =
        (Except.error "Could not rename backup.", ["backup.tar.gz"])) ∧
    (∀ o e o3 e3, env.exec sqliteCmd = ExecOutcome.ok o e →
      (∀ m, env.exec cpCmd ≠ ExecOutcome.transportError m) →
      env.exec tarCmd = ExecOutcome.ok o3 e3 → env.clearOk = true →
      env.pullOk = true → env.renameOk = true →
      create_backup env =
        (Except.ok ("headscale-backup-" ++ env.ts ++ ".tar.gz"),
         ["headscale-backup-" ++ env.ts ++ ".tar.gz"])) := by
  refine ⟨?_, ?_, ?_, ?_, ?_, ?_, ?_, ?_, ?_⟩
  · intro m h
    simp [create_backup, runCmd, h]
  · intro code o e hcode h
    simp [create_backup, runCmd, h, hcode]
  · intro o e m h1 h2
    simp [create_backup, runCmd, h1, h2]
  · intro o e m h1 hcp h3
    cases hc : env.exec cpCmd with
    | transportError m2 => exact absurd hc (hcp m2)
    | ok o2 e2 => simp [create_backup, runCmd, h1, hc, h3]
    | execError c2 o2 e2 => simp [create_backup, runCmd, h1, hc, h3]
  · intro o e code3 o3 e3 h1 hcp hcode h3
    cases hc : env.exec cpCmd with
    | transportError m => exact absurd hc (hcp m)
    | ok o2 e2 => simp [create_backup, runCmd, h1, hc, h3, hcode]
    | execError c2 o2 e2 => simp [create_backup, runCmd, h1, hc, h3, hcode]
  · intro o e o3 e3 h1 hcp h3 hclear
    cases hc : env.exec cpCmd with
    | transportError m => exact absurd hc (hcp m)
    | ok o2 e2 => simp [create_backup, runCmd, h1, hc, h3, hclear]
    | execError c2 o2 e2 => simp [create_backup, runCmd, h1, hc, h3, hclear]
  · intro o e o3 e3 h1 hcp h3 hclear hpull
    cases hc : env.exec cpCmd with
    | transportError m => exact absurd hc (hcp m)
    | ok o2 e2 => simp [create_backup, runCmd, h1, hc, h3, hclear, hpull]
    | execError c2 o2 e2 =>
      simp [create_backup, runCmd, h1, hc, h3, hclear, hpull]
  · intro o e o3 e3 h1 hcp h3 hclear hpull hrename
    cases hc : env.exec cpCmd with
    | transportError m => exact absurd hc (hcp m)
    | ok o2 e2 =>
      simp [create_backup, runCmd, h1, hc, h3, hclear, hpull, hrename]
    | execError c2 o2 e2 =>
      simp [create_backup, runCmd, h1, hc, h3, hclear, hpull, hrename]
  · intro o e o3 e3 h1 hcp h3 hclear hpull hrename
    cases hc : env.exec cpCmd with
    | transportError m => exact absurd hc (hcp m)
    | ok o2 e2 =>
      simp [create_backup, runCmd, h1, hc, h3, hclear, hpull, hrename]
    | execError c2 o2 e2 =>
      simp [create_backup, runCmd, h1, hc, h3, hclear, hpull, hrename]

/-- Witness for C7 amended: the bundling step fails with exit 2 and
`create_backup` aborts, leaving the export directory untouched. -/
theorem create_backup_hard_fail_points_witness :
    create_backup envTarFails =
      (Except.error "Could not tar backup.", ["old1.tar.gz", "old2.tar.gz"]) :=
  (create_backup_hard_fail_points envTarFails).2.2.2.2.1 "" "" 2 ""
    "tar: error" rfl
    (fun m hm => by simp [envTarFails, execTarFails, cpCmd] at hm)
    (by decide) rfl

/-- C8 counterexample: the user listing exits 1 with no transport
fault, and `_create_admin_user` raises — the nonzero exit is not left
as data at this level, contradicting the claim. -/
theorem create_admin_user_raises_on_nonzero_exit :
    execListFails hsListCmd = ExecOutcome.execError 1 "" "some error" ∧
    (create_admin_user yamlParse0 execListFails).1 =
      Except.error "Couldn't list users, bailing out" := ⟨rfl, rfl⟩

/-- C8 amended: `_create_admin_user` lists users and invokes
user-creation iff `charm-admin` is absent from the listing; it raises
on a transport-level failure of either step, and it also raises when
either subcommand exits nonzero (converting the data-level exit code
into a fatal setup error). -/
theorem create_admin_user_spec (parse : String → Except String Yaml)
    (exec : List String → ExecOutcome) :
    (∀ m, exec hsListCmd = ExecOutcome.transportError m →
      (create_admin_user parse exec).1 = Except.error m) ∧
    (∀ code o e, code ≠ 0 → exec hsListCmd = ExecOutcome.execError code o e →
      (create_admin_user parse exec).1 =
        Except.error "Couldn't list users, bailing out") ∧
    (∀ o e names, exec hsListCmd = ExecOutcome.ok o e →
      userNames (dictify parse o) = some names → hasAdmin names = true →
      create_admin_user parse exec = (Except.ok (), [["user", "list"]])) ∧
    (∀ o e names, exec hsListCmd = ExecOutcome.ok o e →
      userNames (dictify parse o) = some names → hasAdmin names = false →
      ((create_admin_user parse exec).2 =
         [["user", "list"], ["user", "create", "charm-admin"]] ∧
       (∀ o2 e2, exec hsCreateCmd = ExecOutcome.ok o2 e2 →
         (create_admin_user parse exec).1 = Except.ok ()) ∧
       (∀ code2 o2 e2, code2 ≠ 0 →
         exec hsCreateCmd = ExecOutcome.execError code2 o2 e2 →
         (create_admin_user parse exec).1 =
           Except.error "Couldn't create admin user, bailing out") ∧
       (∀ m, exec hsCreateCmd = ExecOutcome.transportError m →
         (create_admin_user parse exec).1 = Except.error m))) := by
  refine ⟨?_, ?_, ?_, ?_⟩
  · intro m h
    simp only [hsListCmd] at h
    simp [create_admin_user, run_headscale_cmd, runCmd, h]
  · intro code o e hcode h
    simp only [hsListCmd] at h
    simp [create_admin_user, run_headscale_cmd, runCmd, h, hcode]
  · intro o e names h hnames hadm
    simp only [hsListCmd] at h
    simp [create_admin_user, run_headscale_cmd, runCmd, h, hnames, hadm]
  · intro o e names h hnames hadm
    simp only [hsListCmd] at h
    refine ⟨?_, ?_, ?_, ?_⟩
    · cases hc : exec hsCreateCmd with
      | ok o2 e2 =>
        simp only [hsCreateCmd] at hc
        simp [create_admin_user, run_headscale_cmd, runCmd, h, hnames,
          hadm, hc]
      | execError c2 o2 e2 =>
        simp only [hsCreateCmd] at hc
        simp [create_admin_user, run_headscale_cmd, runCmd, h, hnames,
          hadm, hc]
        split <;> rfl
      | transportError m =>
        simp only [hsCreateCmd] at hc
        simp [create_admin_user, run_headscale_cmd, runCmd, h, hnames,
          hadm, hc]
    · intro o2 e2 hc
      simp only [hsCreateCmd] at hc
      simp [create_admin_user, run_headscale_cmd, runCmd, h, hnames,
        hadm, hc]
    · intro code2 o2 e2 hcode2 hc
      simp only [hsCreateCmd] at hc
      simp [create_admin_user, run_headscale_cmd, runCmd, h, hnames,
        hadm, hc, hcode2]
    · intro m hc
      simp only [hsCreateCmd] at hc
      simp [create_admin_user, run_headscale_cmd, runCmd, h, hnames,
        hadm, hc]

/-- Witness for C8 amended: `charm-admin` is absent from a one-user
listing, so the creation subcommand is invoked and the whole flow
succeeds. -/
theorem create_admin_user_spec_witness :
    (create_admin_user parseUsers execAdminFlow).2 =
      [["user", "list"], ["user", "create", "charm-admin"]] ∧
    (create_admin_user parseUsers execAdminFlow).1 = Except.ok () := by
  have h := (create_admin_user_spec parseUsers execAdminFlow).2.2.2
    "users-yaml" "" [Yaml.str "alice"] rfl rfl rfl
  exact ⟨h.1, h.2.1 "" "" rfl⟩

/-- C10: for every configuration that passed construction, `oidc()`
never dereferences an absent secret: an unset (falsy) issuer yields the
empty map without touching the secret, and a set issuer forces (by the
construction invariant) a present secret and client id, in which case
the full OIDC section is assembled, with expiry defaulting to `1d` and
scope defaulting to `[openid, email, profile]` when unset. -/
theorem oidc_never_derefs_absent_secret (c : HeadscaleConfig)
    (hok : c.postInit = Except.ok ()) :
    (truthyStr c.oidc_issuer = false → c.oidc = some []) ∧
    (truthyStr c.oidc_issuer = true →
      c.oidc_secret.isSome = true ∧ truthyStr c.oidc_client_id = true) ∧
    (∀ sec v, truthyStr c.oidc_issuer = true → c.oidc_secret = some sec →
      getAssoc sec.content "oidc-secret" = some v →
      truthyStr c.oidc_expiry = false → truthyList c.oidc_scope = false →
      c.oidc = some [("oidc", Yaml.map (
        [("issuer", optStrVal c.oidc_issuer),
         ("client_id", optStrVal c.oidc_client_id),
         ("client_secret", Yaml.str v),
         ("expiry", Yaml.str "1d"),
         ("scope", Yaml.list [Yaml.str "openid", Yaml.str "email",
           Yaml.str "profile"]),
         ("only_start_if_oidc_is_available", Yaml.boolv true)] ++
        (match c.oidc_groups with
         | some (g :: gs) =>
           [("allowed_groups", Yaml.list ((g :: gs).map Yaml.str))]
         | _ => [])))]) := by
  have hinv : (c.anyOidcSet && !c.minOidcSet) = false := by
    by_contra hb
    have hb' : (c.anyOidcSet && !c.minOidcSet) = true := by
      cases hx : (c.anyOidcSet && !c.minOidcSet)
      · exact absurd hx hb
      · rfl
    unfold HeadscaleConfig.postInit at hok
    by_cases hl : c.log_level ∈ ["info", "debug", "critical", "warning"]
    · simp [hl, hb'] at hok
    · simp [hl] at hok
  have hmin : truthyStr c.oidc_issuer = true → c.minOidcSet = true := by
    intro hIss
    have hA : c.anyOidcSet = true := by
      unfold HeadscaleConfig.anyOidcSet
      simp [hIss]
    cases hM : c.minOidcSet
    · rw [hA, hM] at hinv
      simp at hinv
    · rfl
  refine ⟨?_, ?_, ?_⟩
  · intro h
    simp [HeadscaleConfig.oidc, h]
  · intro hIss
    have hm := hmin hIss
    unfold HeadscaleConfig.minOidcSet at hm
    simp only [Bool.and_eq_true] at hm
    exact ⟨hm.1.2, hm.2⟩
  · intro sec v hIss hsec hget hexp hscope
    have hexp2 : c.oidc_expiry = none ∨ c.oidc_expiry = some "" := by
      cases he : c.oidc_expiry with
      | none => exact Or.inl rfl
      | some e =>
        right
        rw [he] at hexp
        have he0 : e = "" := by simpa [truthyStr] using hexp
        rw [he0]
    have hsc2 : c.oidc_scope = none ∨ c.oidc_scope = some [] := by
      cases hsc : c.oidc_scope with
      | none => exact Or.inl rfl
      | some l =>
        cases l with
        | nil => exact Or.inr rfl
        | cons x xs =>
          rw [hsc] at hscope
          simp [truthyList] at hscope
    have hgr : c.oidc_groups = none ∨ c.oidc_groups = some [] ∨
        ∃ g gs, c.oidc_groups = some (g :: gs) := by
      cases hg : c.oidc_groups with
      | none => exact Or.inl rfl
      | some l =>
        cases l with
        | nil => exact Or.inr (Or.inl rfl)
        | cons g gs => exact Or.inr (Or.inr ⟨g, gs, rfl⟩)
    rcases hexp2 with he | he <;> rcases hsc2 with hs | hs <;>
      rcases hgr with hg | hg | ⟨g, gs, hg⟩ <;>
      simp [HeadscaleConfig.oidc, hIss, hsec, hget, he, hs, hg]

/-- Witness for C10 at a fully concrete validated configuration with
groups set and expiry/scope unset. -/
theorem oidc_never_derefs_absent_secret_witness :
    cMinOidc.oidc = some [("oidc", Yaml.map
      [("issuer", Yaml.str "https://issuer.example"),
       ("client_id", Yaml.str "client123"),
       ("client_secret", Yaml.str "s3cr3t"),
       ("expiry", Yaml.str "1d"),
       ("scope", Yaml.list [Yaml.str "openid", Yaml.str "email",
         Yaml.str "profile"]),
       ("only_start_if_oidc_is_available", Yaml.boolv true),
       ("allowed_groups", Yaml.list [Yaml.str "admins"])])] :=
  (oidc_never_derefs_absent_secret cMinOidc rfl).2.2 secretOk "s3cr3t"
    rfl rfl rfl rfl rfl

end HeadscaleSpec
